import Mathlib

/-
Verification of the symlink reconciliation engine of the Tuckr dotfile
manager (src/app/symlinkhandler.py) against its natural-language
specification.

The filesystem is modelled as an association list from paths to entries,
where a path is its list of components.  Python `pathlib` operations used by
the source are embedded one by one: `iterdir` becomes `dirEntries`,
`is_symlink` becomes `isSymlinkAt`, `unlink` becomes `fsErase`, and
`symlink_to` becomes `symlinkTo` (whose `none` result models the
`FileExistsError` the call raises when the path is occupied).

Each method of `SymlinkHandler` is embedded as a pure function on this
state; the `in_dotfiles_dir` decorator is embedded as `guardPasses`, taking
the directory listing captured at import time and the working directory at
call time, exactly as the source closes over `files` at decoration time and
re-reads `Path.cwd()` at call time.  Methods that print summaries return the
corresponding data (counts of links made or removed, skipped names).

One wrinkle of the source is modelled explicitly: the decorator's wrapper is
`def check_cwd(a)` — a single parameter.  For the one-parameter methods
(`check_symlinks`, `create_symlinks`) the decorated call runs guard then
body.  For the two-parameter methods (`add_symlink(self, file)` and
`rm_symlink(self, link)`) a call `handler.add_symlink(name)` passes two
positionals to the one-parameter wrapper and raises `TypeError` before the
guard or the body ever runs; the decorated wrappers `add_symlink` and
`rm_symlink` below model exactly that, while `add_body` and `rm_body` embed
the wrapped functions themselves (the `func` the decorator closes over).
-/

namespace Tuckr

/-- A filesystem path, represented by its list of components. -/
abbrev Path := List String

/-- A directory entry: a regular file with its content, a directory, or a
symbolic link.  A symlink records whether the stored target string is
absolute, and the target path. -/
inductive Entry where
  | file (content : String)
  | dir
  | symlink (isAbs : Bool) (target : Path)
deriving DecidableEq

/-- A filesystem state: an association list from paths to entries. -/
abbrev FS := List (Path × Entry)

/-- Look up the entry at a path (first match wins). -/
def fsFind (fs : FS) (p : Path) : Option Entry :=
  match fs with
  | [] => none
  | (q, e) :: rest => if q = p then some e else fsFind rest p

/-- Python `Path.is_symlink()`: does the path currently hold a symlink?
False when the path does not exist at all. -/
def isSymlinkAt (fs : FS) (p : Path) : Bool :=
  match fsFind fs p with
  | some (.symlink _ _) => true
  | _ => false

/-- Python `Path.unlink()`: remove the entry at a path. -/
def fsErase (fs : FS) (p : Path) : FS :=
  match fs with
  | [] => []
  | (q, e) :: rest => if q = p then fsErase rest p else (q, e) :: fsErase rest p

/-- Python `dest.symlink_to(target)`: create a symlink at `dest` holding the
given target.  Returns `none` — modelling the raised `FileExistsError` —
when something already occupies `dest`. -/
def symlinkTo (fs : FS) (dest : Path) (isAbs : Bool) (target : Path) : Option FS :=
  match fsFind fs dest with
  | some _ => none
  | none => some ((dest, Entry.symlink isAbs target) :: fs)

/-- If `p` is the path of a direct child of directory `d`, its final
component; otherwise `none`. -/
def childNameOf (d p : Path) : Option String :=
  if p.take d.length = d then
    match p.drop d.length with
    | [n] => some n
    | _ => none
  else none

/-- Python `Path.cwd().iterdir()`: the paths recorded in `fs` that are
direct children of `d`, in recording order. -/
def dirEntries (fs : FS) (d : Path) : List Path :=
  (fs.map Prod.fst).filter (fun p => (childNameOf d p).isSome)

/-- Python `str(file).split("/")[-1]`: the last component of a path. -/
def basename (p : Path) : String := p.getLastD ""

/-- Character-list version of Python `s.startswith(pat)`. -/
def strPre (pat s : List Char) : Bool :=
  match pat, s with
  | [], _ => true
  | _ :: _, [] => false
  | p :: ps, c :: cs => if p = c then strPre ps cs else false

/-- Character-list version of Python substring containment. -/
def strSub (pat s : List Char) : Bool :=
  match s with
  | [] => pat.isEmpty
  | _ :: cs => strPre pat s || strSub pat cs

/-- Python `pat in s` on strings: substring containment. -/
def strContains (s pat : String) : Bool := strSub pat.data s.data

/-- The marker / configuration file name. -/
def tuckrConf : String := "tuckr.conf"

/-- The `in_dotfiles_dir` decorator's check: the marker path built from the
working directory at call time (`f"{Path.cwd()}/tuckr.conf"`), looked up in
the listing `files` captured once at decoration (import) time. -/
def guardPasses (importListing : List Path) (callCwd : Path) : Bool :=
  decide ((callCwd ++ [tuckrConf]) ∈ importListing)

/-- Resolve a symlink's stored target against the link's own location: an
absolute target stands alone, a relative target resolves against the
directory containing the link. -/
def resolveLink (loc : Path) (isAbs : Bool) (target : Path) : Path :=
  if isAbs then target else loc.dropLast ++ target

/-! ### check_symlinks -/

/-- Body of `check_symlinks`: classify each handler file by whether that
file itself is currently a symlink; returns `(linked, not_linked)` in
iteration order.  The destination directory is never consulted. -/
def check_body (fs : FS) (files : List Path) : List Path × List Path :=
  match files with
  | [] => ([], [])
  | f :: rest =>
      let r := check_body fs rest
      if isSymlinkAt fs f then (f :: r.1, r.2) else (r.1, f :: r.2)

/-- `check_symlinks` as decorated by `in_dotfiles_dir`: `none` models the
"You need to be in a dotfile directory" failure. -/
def check_symlinks (importListing : List Path) (callCwd : Path) (fs : FS)
    (files : List Path) : Option (List Path × List Path) :=
  if guardPasses importListing callCwd then some (check_body fs files) else none

/-! ### create_symlinks -/

/-- Outcome of a `create_symlinks` run: the resulting filesystem, the number
of links created, and the basenames skipped with the "already a symlink"
message (the `FileExistsError` branch). -/
structure CreateOut where
  fs : FS
  linked : Nat
  skipped : List String
deriving DecidableEq

/-- One iteration of the `create_symlinks` loop on handler file `f`: take
the basename, build `~/basename`, skip when the name contains `tuckr.conf`,
otherwise attempt `dest.symlink_to(file)` — whose target is the *relative*
basename string — recording a skip when `FileExistsError` is raised. -/
def createStep (home : Path) (st : CreateOut) (f : Path) : CreateOut :=
  let base := basename f
  let dest := home ++ [base]
  if strContains base tuckrConf then st
  else
    match symlinkTo st.fs dest false [base] with
    | some fs2 => { fs := fs2, linked := st.linked + 1, skipped := st.skipped }
    | none => { st with skipped := st.skipped ++ [base] }

/-- Body of `create_symlinks` over the handler's file list. -/
def create_body (home : Path) (fs : FS) (files : List Path) : CreateOut :=
  files.foldl (createStep home) { fs := fs, linked := 0, skipped := [] }

/-- `create_symlinks` as decorated: the `Bool` is whether the guard passed
(when `false` nothing ran and the error message was printed instead). -/
def create_symlinks (importListing : List Path) (callCwd home : Path) (fs : FS)
    (files : List Path) : CreateOut × Bool :=
  if guardPasses importListing callCwd then (create_body home fs files, true)
  else ({ fs := fs, linked := 0, skipped := [] }, false)

/-! ### remove_symlinks (note: not decorated in the source) -/

/-- One iteration of the `remove_symlinks` loop: unlink `f` when it is
currently a symlink, counting removals. -/
def removeStep (st : FS × Nat) (f : Path) : FS × Nat :=
  if isSymlinkAt st.1 f then (fsErase st.1 f, st.2 + 1) else st

/-- Body of `remove_symlinks` over the handler's file list.  In the source
this method carries no `in_dotfiles_dir` decorator. -/
def remove_symlinks (fs : FS) (files : List Path) : FS × Nat :=
  files.foldl removeStep (fs, 0)

/-- One full unlink invocation: construct the handler (listing the working
directory) and run `remove_symlinks`. -/
def unlink_all (fs : FS) (cwd : Path) : FS × Nat :=
  remove_symlinks fs (dirEntries fs cwd)

/-! ### add_symlink -/

/-- Outcome of an `add_symlink` call.  `typeError` is the `TypeError` raised
by the decorator's one-parameter wrapper when the method is called with its
`file` argument. -/
inductive AddOut where
  | typeError
  | configRefused
  | fileExistsError
  | created (loc : Path) (target : Path)
deriving DecidableEq

/-- Body of `add_symlink` — the wrapped `func` itself — for argument `name`
(a single path component).  The source computes `dest = ~/name` but then
calls `Path(name).symlink_to(dest)`: the link is created at `name` resolved
against the working directory, with the absolute `dest` as its target, and
an occupied `Path(name)` raises an uncaught `FileExistsError`. -/
def add_body (callCwd home : Path) (fs : FS) (name : String) : FS × AddOut :=
  let dest := home ++ [name]
  if strContains name tuckrConf then (fs, AddOut.configRefused)
  else
    match symlinkTo fs (callCwd ++ [name]) true dest with
    | some fs2 => (fs2, AddOut.created (callCwd ++ [name]) dest)
    | none => (fs, AddOut.fileExistsError)

/-- `add_symlink` as decorated and called with its `file` argument:
`handler.add_symlink(name)` passes two positionals to the one-parameter
wrapper `check_cwd(a)`, so the call raises `TypeError` before the guard or
`add_body` runs and the filesystem is untouched.  All parameters of the
intended call are therefore ignored. -/
def add_symlink (_importListing : List Path) (_callCwd _home : Path) (fs : FS)
    (_name : String) : FS × AddOut :=
  (fs, AddOut.typeError)

/-! ### rm_symlink -/

/-- Outcome of an `rm_symlink` call.  `typeError` is the `TypeError` raised
by the decorator's one-parameter wrapper when the method is called with its
`link` argument; `removed` prints the removal message; `silent` is the
implicit fall-through of the body when the path is not a symlink — the
source prints nothing and returns. -/
inductive RmOut where
  | typeError
  | removed
  | silent
deriving DecidableEq

/-- Body of `rm_symlink` — the wrapped `func` itself — for argument `link`
(a single path component, resolved against the working directory). -/
def rm_body (callCwd : Path) (fs : FS) (link : String) : FS × RmOut :=
  let path := callCwd ++ [link]
  if isSymlinkAt fs path then (fsErase fs path, RmOut.removed)
  else (fs, RmOut.silent)

/-- `rm_symlink` as decorated and called with its `link` argument:
`handler.rm_symlink(link)` passes two positionals to the one-parameter
wrapper `check_cwd(a)`, so the call raises `TypeError` before the guard or
`rm_body` runs and the filesystem is untouched.  All parameters of the
intended call are therefore ignored. -/
def rm_symlink (_importListing : List Path) (_callCwd : Path) (fs : FS)
    (_link : String) : FS × RmOut :=
  (fs, RmOut.typeError)

/-! ### Concrete filesystem fixtures -/

/-- A dotfiles directory `/dots` with no `tuckr.conf` marker, holding one
symlink. -/
def fsNoMarker : FS :=
  [(["dots", "vimlink"], Entry.symlink true ["elsewhere", "vimrc"])]

/-- A dotfiles directory `/dots` holding the marker and one tracked regular
file `bashrc`; destination `/home` empty. -/
def fsMarkBash : FS :=
  [(["dots", "tuckr.conf"], Entry.file "cfg"),
   (["dots", "bashrc"], Entry.file "alias ls")]

/-- The spec's scenario: dotfiles root `/dots` holding `bashrc`, `vimrc` and
`tuckr.conf`, all regular files; destination `/home` empty. -/
def fsScenario : FS :=
  [(["dots", "bashrc"], Entry.file "a"),
   (["dots", "vimrc"], Entry.file "b"),
   (["dots", "tuckr.conf"], Entry.file "c")]

/-- The scenario filesystem with a correct destination link
`/home/bashrc -> /dots/bashrc` already in place. -/
def fsScenarioLinked : FS :=
  (["home", "bashrc"], Entry.symlink true ["dots", "bashrc"]) :: fsScenario

/-- A dotfiles directory `/dots` holding the marker and a tracked regular
file `afile`. -/
def fsMarkFile : FS :=
  [(["dots", "tuckr.conf"], Entry.file "cfg"),
   (["dots", "afile"], Entry.file "data")]

/-! ### Helper lemmas -/

theorem fsFind_erase (fs : FS) (p r : Path) :
    fsFind (fsErase fs p) r = if r = p then none else fsFind fs r := by
  induction fs with
  | nil => simp [fsErase, fsFind]
  | cons qe rest ih =>
    obtain ⟨q, e⟩ := qe
    rw [fsErase]
    by_cases hqp : q = p
    · subst hqp
      rw [if_pos rfl, ih, fsFind]
      by_cases hrq : r = q
      · simp [hrq]
      · rw [if_neg hrq, if_neg hrq, if_neg (fun h => hrq h.symm)]
    · rw [if_neg hqp, fsFind, fsFind]
      by_cases hqr : q = r
      · subst hqr
        rw [if_pos rfl, if_pos rfl, if_neg (fun h => hqp h)]
      · rw [if_neg hqr, if_neg hqr, ih]

theorem isSymlinkAt_erase (fs : FS) (q p : Path) :
    isSymlinkAt (fsErase fs q) p = if p = q then false else isSymlinkAt fs p := by
  by_cases hpq : p = q
  · simp [isSymlinkAt, fsFind_erase, hpq]
  · simp [isSymlinkAt, fsFind_erase, hpq]

theorem not_symlinkAt_of_find (fs : FS) (p : Path) (e : Entry)
    (he : fsFind fs p = some e) (hns : ∀ b t, e ≠ Entry.symlink b t) :
    isSymlinkAt fs p = false := by
  simp only [isSymlinkAt, he]
  cases e with
  | file c => rfl
  | dir => rfl
  | symlink b t => exact (hns b t rfl).elim

theorem isSymlinkAt_removeStep (st : FS × Nat) (f p : Path)
    (h : isSymlinkAt st.1 p = false) :
    isSymlinkAt (removeStep st f).1 p = false := by
  simp only [removeStep]
  split
  · rw [isSymlinkAt_erase]
    split
    · rfl
    · exact h
  · exact h

theorem isSymlinkAt_removeFold (l : List Path) (st : FS × Nat) (p : Path)
    (h : isSymlinkAt st.1 p = false) :
    isSymlinkAt (List.foldl removeStep st l).1 p = false := by
  induction l generalizing st with
  | nil => exact h
  | cons f rest ih => exact ih _ (isSymlinkAt_removeStep st f p h)

theorem isSymlinkAt_removeStep_self (st : FS × Nat) (p : Path) :
    isSymlinkAt (removeStep st p).1 p = false := by
  simp only [removeStep]
  split
  next => rw [isSymlinkAt_erase]; simp
  next h => simpa using h

theorem removeFold_clears (l : List Path) (st : FS × Nat) :
    ∀ p ∈ l, isSymlinkAt (List.foldl removeStep st l).1 p = false := by
  induction l generalizing st with
  | nil => intro p hp; cases hp
  | cons f rest ih =>
    intro p hp
    rw [List.foldl_cons]
    rcases List.mem_cons.mp hp with h | h
    · subst h
      exact isSymlinkAt_removeFold rest (removeStep st p) p
        (isSymlinkAt_removeStep_self st p)
    · exact ih (removeStep st f) p h

theorem removeFold_id (l : List Path) (st : FS × Nat)
    (h : ∀ p ∈ l, isSymlinkAt st.1 p = false) :
    List.foldl removeStep st l = st := by
  induction l with
  | nil => rfl
  | cons f rest ih =>
    rw [List.foldl_cons]
    have hf : removeStep st f = st := by
      simp only [removeStep]
      rw [h f (List.mem_cons_self f rest)]
      rfl
    rw [hf]
    exact ih (fun p hp => h p (List.mem_cons_of_mem f hp))

theorem fsFind_removeStep_nonsymlink (st : FS × Nat) (f p : Path) (e : Entry)
    (he : fsFind st.1 p = some e) (hns : ∀ b t, e ≠ Entry.symlink b t) :
    fsFind (removeStep st f).1 p = some e := by
  simp only [removeStep]
  split
  next hs =>
    rw [fsFind_erase]
    have hpf : p ≠ f := by
      intro hpf
      subst hpf
      rw [not_symlinkAt_of_find st.1 p e he hns] at hs
      cases hs
    rw [if_neg hpf]
    exact he
  next => exact he

theorem fsFind_removeFold_nonsymlink (l : List Path) (st : FS × Nat) (p : Path)
    (e : Entry) (he : fsFind st.1 p = some e)
    (hns : ∀ b t, e ≠ Entry.symlink b t) :
    fsFind (List.foldl removeStep st l).1 p = some e := by
  induction l generalizing st with
  | nil => exact he
  | cons f rest ih => exact ih _ (fsFind_removeStep_nonsymlink st f p e he hns)

theorem mem_keys_erase (fs : FS) (q r : Path)
    (h : r ∈ (fsErase fs q).map Prod.fst) : r ∈ fs.map Prod.fst := by
  induction fs with
  | nil => simp [fsErase] at h
  | cons pe rest ih =>
    obtain ⟨a, e⟩ := pe
    rw [fsErase] at h
    by_cases haq : a = q
    · rw [if_pos haq] at h
      exact List.mem_cons_of_mem a (ih h)
    · rw [if_neg haq] at h
      rcases List.mem_cons.mp h with h1 | h1
      · exact List.mem_cons.mpr (Or.inl h1)
      · exact List.mem_cons_of_mem a (ih h1)

theorem mem_keys_removeStep (st : FS × Nat) (f r : Path)
    (h : r ∈ ((removeStep st f).1).map Prod.fst) : r ∈ (st.1).map Prod.fst := by
  by_cases hc : isSymlinkAt st.1 f = true
  · simp only [removeStep, if_pos hc] at h
    exact mem_keys_erase _ _ _ h
  · simp only [removeStep, if_neg hc] at h
    exact h

theorem mem_keys_removeFold (l : List Path) (st : FS × Nat) (r : Path)
    (h : r ∈ ((List.foldl removeStep st l).1).map Prod.fst) :
    r ∈ (st.1).map Prod.fst := by
  induction l generalizing st with
  | nil => exact h
  | cons f rest ih => exact mem_keys_removeStep st f r (ih (removeStep st f) h)

theorem mem_dirEntries_iff (fs : FS) (d p : Path) :
    p ∈ dirEntries fs d ↔ p ∈ fs.map Prod.fst ∧ (childNameOf d p).isSome = true := by
  unfold dirEntries
  exact List.mem_filter

theorem childNameOf_shape (d p : Path) (h : (childNameOf d p).isSome = true) :
    ∃ n, p = d ++ [n] := by
  unfold childNameOf at h
  split at h
  next htake =>
    cases hdrop : p.drop d.length with
    | nil => rw [hdrop] at h; simp at h
    | cons n tail =>
      cases tail with
      | nil =>
        refine ⟨n, ?_⟩
        conv_lhs => rw [← List.take_append_drop d.length p]
        rw [hdrop, htake]
      | cons m tail2 => rw [hdrop] at h; simp at h
  next => simp at h

theorem symlinkTo_some (fs : FS) (dest : Path) (b : Bool) (t : Path) (fs2 : FS)
    (h : symlinkTo fs dest b t = some fs2) :
    fsFind fs dest = none ∧ fs2 = (dest, Entry.symlink b t) :: fs := by
  unfold symlinkTo at h
  cases hd : fsFind fs dest with
  | some e => rw [hd] at h; cases h
  | none =>
    rw [hd] at h
    injection h with h2
    exact ⟨rfl, h2.symm⟩

theorem fsFind_createStep (home : Path) (st : CreateOut) (f p : Path) (e : Entry)
    (he : fsFind st.fs p = some e) :
    fsFind (createStep home st f).fs p = some e := by
  simp only [createStep]
  split
  · exact he
  · cases hst : symlinkTo st.fs (home ++ [basename f]) false [basename f] with
    | none => exact he
    | some fs2 =>
      obtain ⟨hfree, rfl⟩ := symlinkTo_some _ _ _ _ _ hst
      dsimp only
      rw [fsFind]
      have hne : home ++ [basename f] ≠ p := by
        intro hq
        rw [hq, he] at hfree
        cases hfree
      rw [if_neg hne]
      exact he

theorem fsFind_createFold (home : Path) (l : List Path) (st : CreateOut)
    (p : Path) (e : Entry) (he : fsFind st.fs p = some e) :
    fsFind (List.foldl (createStep home) st l).fs p = some e := by
  induction l generalizing st with
  | nil => exact he
  | cons f rest ih => exact ih _ (fsFind_createStep home st f p e he)

theorem createStep_decomp (home : Path) (fs0 : FS) (n : Nat) (sk : List String)
    (f : Path) :
    createStep home ⟨fs0, n, sk⟩ f
      = ⟨(createStep home ⟨fs0, n, []⟩ f).fs, (createStep home ⟨fs0, n, []⟩ f).linked,
         sk ++ (createStep home ⟨fs0, n, []⟩ f).skipped⟩ := by
  simp only [createStep]
  split
  · simp
  · cases hst : symlinkTo fs0 (home ++ [basename f]) false [basename f] with
    | some fs2 => simp
    | none => simp

theorem createFold_decomp (home : Path) (l : List Path) (fs0 : FS) (n : Nat)
    (sk : List String) :
    List.foldl (createStep home) ⟨fs0, n, sk⟩ l
      = ⟨(List.foldl (createStep home) ⟨fs0, n, []⟩ l).fs,
         (List.foldl (createStep home) ⟨fs0, n, []⟩ l).linked,
         sk ++ (List.foldl (createStep home) ⟨fs0, n, []⟩ l).skipped⟩ := by
  induction l generalizing fs0 n sk with
  | nil => simp
  | cons f rest ih =>
    rw [List.foldl_cons, List.foldl_cons, createStep_decomp home fs0 n sk f]
    rcases hX : createStep home ⟨fs0, n, []⟩ f with ⟨F1, N1, S1⟩
    dsimp only
    rw [ih F1 N1 (sk ++ S1), ih F1 N1 S1]
    dsimp only
    rw [List.append_assoc]

theorem createStep_conflict (home : Path) (st : CreateOut) (f : Path) (e : Entry)
    (hnc : strContains (basename f) tuckrConf = false)
    (he : fsFind st.fs (home ++ [basename f]) = some e) :
    createStep home st f = ⟨st.fs, st.linked, st.skipped ++ [basename f]⟩ := by
  simp only [createStep, hnc, Bool.false_eq_true, if_false]
  simp only [symlinkTo, he]

theorem fsFind_createStep_conf (home : Path) (st : CreateOut) (f : Path)
    (h : fsFind st.fs (home ++ [tuckrConf]) = none) :
    fsFind (createStep home st f).fs (home ++ [tuckrConf]) = none := by
  simp only [createStep]
  split
  · exact h
  next hnc =>
    cases hst : symlinkTo st.fs (home ++ [basename f]) false [basename f] with
    | none => exact h
    | some fs2 =>
      obtain ⟨hfree, rfl⟩ := symlinkTo_some _ _ _ _ _ hst
      dsimp only
      rw [fsFind]
      have hne : home ++ [basename f] ≠ home ++ [tuckrConf] := by
        intro hq
        have hb : basename f = tuckrConf := by
          have h2 := List.append_cancel_left hq
          simpa using h2
        rw [hb] at hnc
        exact hnc (by decide)
      rw [if_neg hne]
      exact h

theorem fsFind_createFold_conf (home : Path) (l : List Path) (st : CreateOut)
    (h : fsFind st.fs (home ++ [tuckrConf]) = none) :
    fsFind (List.foldl (createStep home) st l).fs (home ++ [tuckrConf]) = none := by
  induction l generalizing st with
  | nil => exact h
  | cons f rest ih => exact ih _ (fsFind_createStep_conf home st f h)

theorem add_body_config (callCwd home : Path) (fs : FS) :
    add_body callCwd home fs tuckrConf = (fs, AddOut.configRefused) := by
  simp only [add_body]
  rw [if_pos (by decide : strContains tuckrConf tuckrConf = true)]

/-! ### Claim theorems -/

/-- Claim C1 (code bug evaluated on the embedding): `remove_symlinks` is the
one mutating method the source does not decorate with `in_dotfiles_dir`.
On a working directory with no `tuckr.conf` marker — where the guard check
fails — a full unlink invocation still removes the symlink it finds and
mutates the filesystem, contradicting the claim that every mutating
operation performs zero writes and fails with `NotADotfilesDirectory`
under this precondition. -/
theorem c1_unguarded_unlink_mutates :
    guardPasses (dirEntries fsNoMarker ["dots"]) ["dots"] = false
      ∧ unlink_all fsNoMarker ["dots"] = ([], 1) := by decide

/-- Claim C2 (code bug evaluated on the embedding): under any reading the
claimed destination link is never created.  The body computes
`dest = ~/name` but calls `Path(name).symlink_to(dest)`, so the link is
attempted at the tracked path with the destination as target — the reverse
of the claimed direction.  For a genuinely tracked file (`bashrc` exists
under the dotfiles root) the body raises an uncaught `FileExistsError` and
creates nothing; for a name not present in the root it creates the link
inside the dotfiles directory pointing at the (absent) home path; and the
real decorated call raises `TypeError` from the one-parameter wrapper
before the body even runs.  The claimed `/home/bashrc` link never comes
into being. -/
theorem c2_add_reversed_direction :
    add_body ["dots"] ["home"] fsMarkBash "bashrc"
        = (fsMarkBash, AddOut.fileExistsError)
      ∧ add_body ["dots"] ["home"] fsMarkBash "newrc"
        = ((["dots", "newrc"], Entry.symlink true ["home", "newrc"]) :: fsMarkBash,
           AddOut.created ["dots", "newrc"] ["home", "newrc"])
      ∧ fsFind fsMarkBash ["dots", "bashrc"] = some (Entry.file "alias ls")
      ∧ add_symlink (dirEntries fsMarkBash ["dots"]) ["dots"] ["home"] fsMarkBash
          "bashrc" = (fsMarkBash, AddOut.typeError) := by decide

/-- Claim C3 (code bug evaluated on the embedding): `create_symlinks`
reassigns `file` to its basename before calling `dest.symlink_to(file)`, so
the stored target is the *relative* basename, not the absolute tracked
path.  The created link `/home/bashrc` therefore resolves to itself
(`/home/bashrc`), not to the tracked file `/dots/bashrc` as the claim
states. -/
theorem c3_relative_target_self_loop :
    fsFind (create_body ["home"] fsMarkBash (dirEntries fsMarkBash ["dots"])).fs
        ["home", "bashrc"] = some (Entry.symlink false ["bashrc"])
      ∧ resolveLink ["home", "bashrc"] false ["bashrc"] = ["home", "bashrc"]
      ∧ (["home", "bashrc"] : Path) ≠ ["dots", "bashrc"] := by decide

/-- Claim C8 counterexample: in the spec's scenario (`bashrc`, `vimrc`,
`tuckr.conf` regular files in the root, destination empty) the scan
*does* report `tuckr.conf` — it appears in the not-linked output —
contradicting the claim that `tuckr.conf` is not reported. -/
theorem c8_scan_reports_config :
    (["dots", "tuckr.conf"] : Path) ∈ (check_body fsScenario (dirEntries fsScenario ["dots"])).2 := by
  decide

/-- Claim C8 amended: `check_symlinks` classifies every entry of the
dotfiles root — `tuckr.conf` included — by whether that entry itself is a
symlink, never consulting destination paths.  In the scenario all three
regular files are reported not linked and none linked, and adding a correct
destination link `/home/bashrc -> /dots/bashrc` changes nothing in the
report. -/
theorem c8_scan_classifies_sources :
    check_symlinks (dirEntries fsScenario ["dots"]) ["dots"] fsScenario
        (dirEntries fsScenario ["dots"])
        = some ([], [["dots", "bashrc"], ["dots", "vimrc"], ["dots", "tuckr.conf"]])
      ∧ check_symlinks (dirEntries fsScenarioLinked ["dots"]) ["dots"] fsScenarioLinked
        (dirEntries fsScenarioLinked ["dots"])
        = some ([], [["dots", "bashrc"], ["dots", "vimrc"], ["dots", "tuckr.conf"]]) := by
  decide

/-- Claim C4: a destination path pre-occupied by an existing entry is
skipped without raising — the `FileExistsError` from `symlink_to` is caught.
Processing the conflicted file changes nothing except appending its basename
to the skip record: the final filesystem and link count equal those of a run
without that file, the pre-existing entry survives with its content intact,
and the remaining files are processed exactly as they otherwise would be. -/
theorem c4_conflict_skipped (home : Path) (fs : FS) (l1 l2 : List Path)
    (f : Path) (e : Entry)
    (hnc : strContains (basename f) tuckrConf = false)
    (he : fsFind fs (home ++ [basename f]) = some e) :
    (create_body home fs (l1 ++ f :: l2)).fs = (create_body home fs (l1 ++ l2)).fs
      ∧ (create_body home fs (l1 ++ f :: l2)).linked
          = (create_body home fs (l1 ++ l2)).linked
      ∧ fsFind (create_body home fs (l1 ++ f :: l2)).fs (home ++ [basename f])
          = some e
      ∧ ∃ s1 s2, (create_body home fs (l1 ++ f :: l2)).skipped
            = s1 ++ basename f :: s2
          ∧ (create_body home fs (l1 ++ l2)).skipped = s1 ++ s2 := by
  unfold create_body
  rw [List.foldl_append, List.foldl_append, List.foldl_cons]
  have he1 := fsFind_createFold home l1 ⟨fs, 0, []⟩ (home ++ [basename f]) e he
  rcases hst1 : List.foldl (createStep home) ⟨fs, 0, []⟩ l1 with ⟨F1, N1, S1⟩
  rw [hst1] at he1
  dsimp only at he1
  rw [createStep_conflict home ⟨F1, N1, S1⟩ f e hnc he1]
  dsimp only
  rw [createFold_decomp home l2 F1 N1 (S1 ++ [basename f]),
    createFold_decomp home l2 F1 N1 S1]
  dsimp only
  refine ⟨rfl, rfl, fsFind_createFold home l2 ⟨F1, N1, []⟩ _ e he1, S1,
    (List.foldl (createStep home) ⟨F1, N1, []⟩ l2).skipped, ?_, rfl⟩
  simp

/-- Claim C4 witness: a concrete run in which the destination `home/vimrc`
is pre-occupied by a regular file. -/
def fsW4 : FS :=
  [(["home", "vimrc"], Entry.file "keep"),
   (["dots", "tuckr.conf"], Entry.file "c"),
   (["dots", "bashrc"], Entry.file "x"),
   (["dots", "vimrc"], Entry.file "y"),
   (["dots", "zshrc"], Entry.file "z")]

/-- Claim C4 witness theorem: `c4_conflict_skipped` applied at a concrete
filesystem. -/
theorem c4_witness :
    (create_body ["home"] fsW4
        ([["dots", "bashrc"]] ++ ["dots", "vimrc"] :: [["dots", "zshrc"]])).fs
        = (create_body ["home"] fsW4 ([["dots", "bashrc"]] ++ [["dots", "zshrc"]])).fs
      ∧ (create_body ["home"] fsW4
          ([["dots", "bashrc"]] ++ ["dots", "vimrc"] :: [["dots", "zshrc"]])).linked
          = (create_body ["home"] fsW4 ([["dots", "bashrc"]] ++ [["dots", "zshrc"]])).linked
      ∧ fsFind (create_body ["home"] fsW4
            ([["dots", "bashrc"]] ++ ["dots", "vimrc"] :: [["dots", "zshrc"]])).fs
          (["home"] ++ [basename ["dots", "vimrc"]]) = some (Entry.file "keep")
      ∧ ∃ s1 s2, (create_body ["home"] fsW4
            ([["dots", "bashrc"]] ++ ["dots", "vimrc"] :: [["dots", "zshrc"]])).skipped
            = s1 ++ basename ["dots", "vimrc"] :: s2
          ∧ (create_body ["home"] fsW4
              ([["dots", "bashrc"]] ++ [["dots", "zshrc"]])).skipped = s1 ++ s2 :=
  c4_conflict_skipped ["home"] fsW4 [["dots", "bashrc"]] [["dots", "zshrc"]]
    ["dots", "vimrc"] (Entry.file "keep") (by decide) (by decide)

/-- Claim C5: every removal operation only unlinks verified symlinks — an
entry that is not a symlink (a regular file or a directory) survives
`remove_symlinks` (over any handler file list), the decorated `rm_symlink`
call (which raises `TypeError` before touching anything), and the
`rm_symlink` body itself with its `is_symlink` test before `unlink`, with
its content untouched in every case. -/
theorem c5_removal_preserves_nonsymlinks (fs : FS) (files : List Path)
    (importListing : List Path) (cwd : Path) (link : String)
    (p : Path) (e : Entry) (he : fsFind fs p = some e)
    (hns : ∀ b t, e ≠ Entry.symlink b t) :
    fsFind (remove_symlinks fs files).1 p = some e
      ∧ fsFind (rm_symlink importListing cwd fs link).1 p = some e
      ∧ fsFind (rm_body cwd fs link).1 p = some e := by
  refine ⟨fsFind_removeFold_nonsymlink files (fs, 0) p e he hns, he, ?_⟩
  simp only [rm_body]
  by_cases hs : isSymlinkAt fs (cwd ++ [link]) = true
  · rw [if_pos hs]
    dsimp only
    rw [fsFind_erase]
    have hne : p ≠ cwd ++ [link] := by
      intro hpe
      subst hpe
      rw [not_symlinkAt_of_find fs _ e he hns] at hs
      cases hs
    rw [if_neg hne]
    exact he
  · rw [if_neg hs]
    exact he

/-- Claim C5 witness: `c5_removal_preserves_nonsymlinks` applied at a
concrete filesystem where a regular file sits at the targeted path. -/
theorem c5_witness :
    fsFind (remove_symlinks fsMarkFile [["dots", "afile"]]).1 ["dots", "afile"]
        = some (Entry.file "data")
      ∧ fsFind (rm_symlink (dirEntries fsMarkFile ["dots"]) ["dots"] fsMarkFile
            "afile").1 ["dots", "afile"] = some (Entry.file "data")
      ∧ fsFind (rm_body ["dots"] fsMarkFile "afile").1 ["dots", "afile"]
          = some (Entry.file "data") :=
  c5_removal_preserves_nonsymlinks fsMarkFile [["dots", "afile"]]
    (dirEntries fsMarkFile ["dots"]) ["dots"] "afile" ["dots", "afile"]
    (Entry.file "data") (by decide) (by intro b t h; cases h)

/-- Claim C6 counterexample: with a regular file at `dots/afile` and nothing
at `dots/missing`, the real `rm_symlink` call raises `TypeError` from the
decorator's one-parameter wrapper in both cases — the identical outcome,
with the marker present and the filesystem untouched.  There is no reported
`NotLinked` failure and the two cases are indistinguishable, refuting the
claim that each yields a distinct reported error. -/
theorem c6_counterexample :
    rm_symlink (dirEntries fsMarkFile ["dots"]) ["dots"] fsMarkFile "afile"
        = (fsMarkFile, RmOut.typeError)
      ∧ rm_symlink (dirEntries fsMarkFile ["dots"]) ["dots"] fsMarkFile "missing"
        = (fsMarkFile, RmOut.typeError)
      ∧ guardPasses (dirEntries fsMarkFile ["dots"]) ["dots"] = true
      ∧ fsFind fsMarkFile ["dots", "afile"] = some (Entry.file "data")
      ∧ fsFind fsMarkFile ["dots", "missing"] = none := by decide

/-- Claim C6 amended: every call of the decorated `rm_symlink` with a path
argument raises `TypeError` from the one-parameter wrapper before the guard
or the body runs, leaving the filesystem unchanged — so the missing-path
and non-symlink cases are indistinguishable and no `NotLinked` outcome
exists; and the wrapped body itself, were it reachable, silently does
nothing when the resolved path is not a symlink, again reporting nothing
and not distinguishing the two cases. -/
theorem c6_rm_typeerror_unreported (importListing : List Path) (cwd : Path)
    (fs : FS) (link : String)
    (hns : isSymlinkAt fs (cwd ++ [link]) = false) :
    rm_symlink importListing cwd fs link = (fs, RmOut.typeError)
      ∧ rm_body cwd fs link = (fs, RmOut.silent) := by
  refine ⟨rfl, ?_⟩
  simp only [rm_body, hns, Bool.false_eq_true, if_false]

/-- Claim C6 witness: `c6_rm_typeerror_unreported` applied at a concrete
filesystem with a regular file at the targeted path. -/
theorem c6_witness :
    rm_symlink (dirEntries fsMarkBash ["dots"]) ["dots"] fsMarkBash "bashrc"
        = (fsMarkBash, RmOut.typeError)
      ∧ rm_body ["dots"] fsMarkBash "bashrc" = (fsMarkBash, RmOut.silent) :=
  c6_rm_typeerror_unreported (dirEntries fsMarkBash ["dots"]) ["dots"] fsMarkBash
    "bashrc" (by decide)

/-- Claim C7: the manager's own configuration file is never linked.
`create_symlinks` never creates the destination entry `home/tuckr.conf`
(its loop `continue`s on any name containing `tuckr.conf` before calling
`symlink_to`); the decorated `add_symlink` call leaves the filesystem
unchanged and never reports a created link (it raises `TypeError` before
anything runs); and the `add_symlink` body itself refuses the name outright
at its `tuckr.conf` check, before any `symlink_to`. -/
theorem c7_config_never_linked (importListing : List Path) (cwd home : Path)
    (fs : FS) (files : List Path)
    (hconf : fsFind fs (home ++ [tuckrConf]) = none) :
    fsFind (create_body home fs files).fs (home ++ [tuckrConf]) = none
      ∧ (add_symlink importListing cwd home fs tuckrConf).1 = fs
      ∧ (∀ loc t, (add_symlink importListing cwd home fs tuckrConf).2
          ≠ AddOut.created loc t)
      ∧ add_body cwd home fs tuckrConf = (fs, AddOut.configRefused) := by
  refine ⟨fsFind_createFold_conf home files ⟨fs, 0, []⟩ hconf, rfl, ?_,
    add_body_config cwd home fs⟩
  intro loc t
  exact fun h => AddOut.noConfusion h

/-- Claim C7 witness: `c7_config_never_linked` applied at the scenario
filesystem. -/
theorem c7_witness :
    fsFind (create_body ["home"] fsScenario (dirEntries fsScenario ["dots"])).fs
        (["home"] ++ [tuckrConf]) = none
      ∧ (add_symlink (dirEntries fsScenario ["dots"]) ["dots"] ["home"] fsScenario
          tuckrConf).1 = fsScenario
      ∧ (∀ loc t, (add_symlink (dirEntries fsScenario ["dots"]) ["dots"] ["home"]
          fsScenario tuckrConf).2 ≠ AddOut.created loc t)
      ∧ add_body ["dots"] ["home"] fsScenario tuckrConf
          = (fsScenario, AddOut.configRefused) :=
  c7_config_never_linked (dirEntries fsScenario ["dots"]) ["dots"] ["home"]
    fsScenario (dirEntries fsScenario ["dots"]) (by decide)

/-- Claim C9: `unlink_all` is idempotent.  After one full unlink invocation
(relisting the working directory and running `remove_symlinks`), a second
invocation removes nothing and returns the filesystem unchanged. -/
theorem c9_unlink_all_idempotent (fs : FS) (cwd : Path) :
    unlink_all (unlink_all fs cwd).1 cwd = ((unlink_all fs cwd).1, 0) := by
  have hall : ∀ p ∈ dirEntries (unlink_all fs cwd).1 cwd,
      isSymlinkAt (unlink_all fs cwd).1 p = false := by
    intro p hp
    have h1 : p ∈ dirEntries fs cwd := by
      rw [mem_dirEntries_iff] at hp ⊢
      exact ⟨mem_keys_removeFold (dirEntries fs cwd) (fs, 0) p hp.1, hp.2⟩
    exact removeFold_clears (dirEntries fs cwd) (fs, 0) p h1
  exact removeFold_id (dirEntries (unlink_all fs cwd).1 cwd)
    ((unlink_all fs cwd).1, 0) hall

/-- Claim C10: the `in_dotfiles_dir` guard compares the marker path built
from the working directory at call time against the listing captured once
at module load.  If the working directory has changed since then, the guard
rejects the call even when `tuckr.conf` does exist in the new working
directory on the current filesystem. -/
theorem c10_guard_stale_listing (fs fs2 : FS) (importCwd callCwd : Path)
    (hne : callCwd ≠ importCwd)
    (_hmarker : ∃ e, fsFind fs2 (callCwd ++ [tuckrConf]) = some e) :
    guardPasses (dirEntries fs importCwd) callCwd = false := by
  rw [guardPasses, decide_eq_false_iff_not]
  intro hmem
  rw [mem_dirEntries_iff] at hmem
  obtain ⟨n, hn⟩ := childNameOf_shape importCwd _ hmem.2
  exact hne (List.append_inj' hn rfl).1

/-- Claim C10 witness fixture: the filesystem at import time, with the
marker under `olddir`. -/
def fsOldCwd : FS := [(["olddir", "tuckr.conf"], Entry.file "cfg")]

/-- Claim C10 witness fixture: the filesystem at call time, with the marker
under the new working directory `newdir`. -/
def fsNewCwd : FS := [(["newdir", "tuckr.conf"], Entry.file "cfg")]

/-- Claim C10 witness: `c10_guard_stale_listing` applied after a concrete
directory change from `olddir` to `newdir`. -/
theorem c10_witness :
    guardPasses (dirEntries fsOldCwd ["olddir"]) ["newdir"] = false :=
  c10_guard_stale_listing fsOldCwd fsNewCwd ["olddir"] ["newdir"] (by decide)
    ⟨Entry.file "cfg", by decide⟩

end Tuckr
